import Mathlib

/-!
# Verification of the `http-server` request-handling pipeline (`src/main.py`)

Shallow embedding of the single-threaded HTTP server in `src/main.py`.
Python `str` values are modelled as `List Char` (`PyStr`), byte strings
(`bytes`) as `List Nat` with every element below 256.  The external
effects of the program — the client socket (`recv` / `sendall` / `close`),
the filesystem (`os.path.exists`, `open(...).read()`), and the stdlib
MIME table (`mimetypes.guess_type`) — are modelled as oracles carried in
an environment record: each oracle reports exactly the outcomes its
Python interface allows, including raising an exception, and the control
flow of the embedded functions mirrors the source's `try`/`except`/
`finally` structure.  Every `sendall` call on a connection is numbered,
and its success is decided by the environment.
-/

/-- A Python `str`, modelled as its list of characters. -/
abbrev PyStr := List Char

/-- The characters of a string literal, used to transcribe the source's
string constants. -/
def str (s : String) : PyStr := s.data

/-- Python `s.split('\r\n')`: split on every occurrence of the two-character
separator, keeping empty pieces; the result is never empty. -/
def splitCRLF : PyStr → List PyStr
  | [] => [[]]
  | [c] => [[c]]
  | c :: d :: rest =>
    if c = '\r' ∧ d = '\n' then [] :: splitCRLF rest
    else
      match splitCRLF (d :: rest) with
      | [] => [[c]]
      | t :: ts => (c :: t) :: ts

/-- Python `s.split(' ')`: split on every single space, keeping empty
pieces; the result is never empty. -/
def splitSpace : PyStr → List PyStr
  | [] => [[]]
  | ' ' :: rest => [] :: splitSpace rest
  | c :: rest =>
    match splitSpace rest with
    | [] => [[c]]
    | t :: ts => (c :: t) :: ts

/-- Python `s.split(': ', 1)`: split at the first occurrence of `": "`
only; the result has one element (no separator present) or two. -/
def splitColonSpace1 : PyStr → List PyStr
  | [] => [[]]
  | [c] => [[c]]
  | c :: d :: rest =>
    if c = ':' ∧ d = ' ' then [[], rest]
    else
      match splitColonSpace1 (d :: rest) with
      | [] => [[c]]
      | t :: ts => (c :: t) :: ts

/-- Whether the string contains the substring `"\r\n"`. -/
def hasCRLF : PyStr → Bool
  | [] => false
  | [_] => false
  | c :: d :: rest => decide (c = '\r' ∧ d = '\n') || hasCRLF (d :: rest)

/-- Whether the string contains the substring `": "`. -/
def hasColonSpace : PyStr → Bool
  | [] => false
  | [_] => false
  | c :: d :: rest => decide (c = ':' ∧ d = ' ') || hasColonSpace (d :: rest)

/-- Python `path.lstrip('/')`: removes every leading `'/'` character. -/
def lstripSlash : PyStr → PyStr
  | [] => []
  | c :: rest => if c = '/' then lstripSlash rest else c :: rest

/-- The result of `parse_request` (`src/main.py:40-60`): method, path,
HTTP version and the ordered header dictionary. -/
structure ParsedRequest where
  method : PyStr
  path : PyStr
  httpVersion : PyStr
  headers : List (PyStr × PyStr)
deriving DecidableEq, Repr

/-- Python `headers[name] = value` on an insertion-ordered `dict`: an
existing key keeps its position and gets the new value, a new key is
appended at the end. -/
def dictInsert : List (PyStr × PyStr) → PyStr → PyStr → List (PyStr × PyStr)
  | [], k, v => [(k, v)]
  | (k', v') :: rest, k, v =>
    if k' = k then (k', v) :: rest else (k', v') :: dictInsert rest k v

/-- The header loop of `parse_request` (`src/main.py:49-54`): consume
lines until the first empty line; each line must split into exactly two
pieces on the first `": "`, else a `ValueError` is raised (`none`). -/
def parseHeaderLines : List PyStr → List (PyStr × PyStr) → Option (List (PyStr × PyStr))
  | [], acc => some acc
  | line :: rest, acc =>
    if line = [] then some acc
    else
      match splitColonSpace1 line with
      | [name, value] => parseHeaderLines rest (dictInsert acc name value)
      | _ => none

/-- `parse_request` (`src/main.py:40-60`): split the raw text on `"\r\n"`,
require the first line to split into exactly three space-separated tokens
(else `ValueError`, modelled as `none`), then parse the header lines.
`splitCRLF` never returns `[]`, so `headD`/`tail` model `lines[0]` /
`lines[1:]` exactly. -/
def parse_request (request_data : PyStr) : Option ParsedRequest :=
  match splitSpace ((splitCRLF request_data).headD []) with
  | [method, path, http_version] =>
    (parseHeaderLines ((splitCRLF request_data).tail) []).map
      (fun headers => ⟨method, path, http_version, headers⟩)
  | _ => none

/-- UTF-8 encoding of one scalar value, as byte values. -/
def utf8EncodeChar (c : Char) : List Nat :=
  let n := c.toNat
  if n < 0x80 then [n]
  else if n < 0x800 then [0xC0 + n / 64, 0x80 + n % 64]
  else if n < 0x10000 then
    [0xE0 + n / 4096, 0x80 + (n / 64) % 64, 0x80 + n % 64]
  else
    [0xF0 + n / 262144, 0x80 + (n / 4096) % 64, 0x80 + (n / 64) % 64, 0x80 + n % 64]

/-- Python `s.encode('utf-8')`, as a list of byte values. -/
def utf8Bytes : PyStr → List Nat
  | [] => []
  | c :: rest => utf8EncodeChar c ++ utf8Bytes rest

/-- Python `bs.decode('latin-1')`: byte value `n` becomes the character
with code point `n`. -/
def latin1Decode (bs : List Nat) : PyStr := bs.map Char.ofNat

/-- Python `str(n)` for a natural number. -/
def natToStr (n : Nat) : PyStr := (toString n).data

/-- The `status_messages` dictionary of `generate_response`
(`src/main.py:93-97`). -/
def status_messages : List (Nat × PyStr) :=
  [(200, str "OK"), (404, str "Not Found"), (500, str "Internal Server Error")]

/-- `status_messages.get(status_code, 'Unknown Status')`
(`src/main.py:99`). -/
def statusMessage (status_code : Nat) : PyStr :=
  (status_messages.lookup status_code).getD (str "Unknown Status")

/-- The header-block loop of `generate_response` (`src/main.py:102-104`):
each entry rendered as `f"{name}: {value}\r\n"`, concatenated in order. -/
def header_lines : List (PyStr × PyStr) → PyStr
  | [] => []
  | (n, v) :: rest => n ++ str ": " ++ v ++ str "\r\n" ++ header_lines rest

/-- `generate_response` (`src/main.py:92-107`): status line, header block,
blank line, body — the whole string encoded as UTF-8 bytes. -/
def generate_response (status_code : Nat) (headers : List (PyStr × PyStr)) (body : PyStr) : List Nat :=
  utf8Bytes (str "HTTP/1.1 " ++ natToStr status_code ++ str " " ++
    statusMessage status_code ++ str "\r\n" ++ header_lines headers ++
    str "\r\n" ++ body)

/-- Python's `x or default` applied to `mimetypes.guess_type`'s first
component: `None` and the empty string are falsy and yield the default. -/
def pyOrStr (a : Option PyStr) (b : PyStr) : PyStr :=
  match a with
  | none => b
  | some s => if s = [] then b else s

/-- `get_content_type` (`src/main.py:62-70`); `mimetypes.guess_type` is
external to the repository and is passed in as the lookup `guess`. -/
def get_content_type (guess : PyStr → Option PyStr) (file_path : PyStr) : PyStr :=
  pyOrStr (guess file_path) (str "application/octet-stream")

/-- Outcome of the filesystem for one path, covering every outcome the
Python calls in `serve_static_file` can have. -/
inductive FsResult where
  /-- `os.path.exists` returns `False`. -/
  | absent
  /-- `os.path.exists` returns `True` and `open(path,'rb').read()`
  returns `content` (byte values). -/
  | file (content : List Nat)
  /-- The path is a directory: `os.path.exists` returns `True` and
  `open(path, 'rb')` raises `IsADirectoryError`. -/
  | directory
  /-- `os.path.exists` returns `True` but opening or reading raises
  (permission error, race where the file disappears, ...). -/
  | readRaises
  /-- The existence check itself raises. -/
  | checkRaises
deriving DecidableEq, Repr

/-- The per-connection environment: the filesystem and MIME oracles, the
decoded result of the single `recv` (`none` when `recv` or the UTF-8
decode raises), and the outcome of the `k`-th `sendall` call. -/
structure Env where
  fs : PyStr → FsResult
  guess : PyStr → Option PyStr
  recv : Option PyStr
  sendOk : Nat → Bool

/-- The `except` branch of `serve_static_file` (`src/main.py:87-90`):
build the 500 response and try to send it; if that `sendall` also raises,
the exception propagates (`true` in the last component).  Results are
(bytes sent so far, next send index, exception escaping). -/
def except500 (env : Env) (k : Nat) (acc : List (List Nat)) : List (List Nat) × Nat × Bool :=
  let response := generate_response 500 [] (str "500 Internal Server Error")
  if env.sendOk k then (acc ++ [response], k + 1, false)
  else (acc, k + 1, true)

/-- The `client_socket.sendall(response)` on `src/main.py:86`, inside the
`try`: a failure falls into `except500`. -/
def trySend (env : Env) (k : Nat) (acc : List (List Nat)) (response : List Nat) : List (List Nat) × Nat × Bool :=
  if env.sendOk k then (acc ++ [response], k + 1, false)
  else except500 env (k + 1) acc

/-- `serve_static_file` (`src/main.py:72-90`): existence check, whole-file
read, headers from `get_content_type` and the byte count, the body being
the latin-1 decoding of the bytes; absent paths get a 404; any raise in
the `try` falls into `except500`. -/
def serve_static_file (env : Env) (k : Nat) (path : PyStr) : List (List Nat) × Nat × Bool :=
  match env.fs path with
  | .file content =>
    let headers := [(str "Content-Type", get_content_type env.guess path),
                    (str "Content-Length", natToStr content.length)]
    trySend env k [] (generate_response 200 headers (latin1Decode content))
  | .absent =>
    trySend env k [] (generate_response 404 [] (str "404 Not Found"))
  | .directory => except500 env k []
  | .readRaises => except500 env k []
  | .checkRaises => except500 env k []

/-- Observable per-connection events: bytes sent, connection closed. -/
inductive Ev where
  | sent (bytes : List Nat)
  | closed
deriving DecidableEq, Repr

/-- The `try` body of `handle_client` (`src/main.py:110-122`): receive and
decode, parse, and either take the root branch — which only assigns the
built response to a local variable and sends nothing — or delegate to
`serve_static_file` on `path.lstrip('/')`. -/
def handleBody (env : Env) : List (List Nat) × Nat × Bool :=
  match env.recv with
  | none => ([], 0, true)
  | some request_data =>
    match parse_request request_data with
    | none => ([], 0, true)
    | some req =>
      if req.path = str "/" then ([], 0, false)
      else serve_static_file env 0 (lstripSlash req.path)

/-- The `except`/`finally` tail of `handle_client` (`src/main.py:123-129`):
on an exception, best-effort send of a 500 — whose own failure escapes —
then unconditionally close. -/
def afterBody (env : Env) : List (List Nat) × Nat × Bool → List Ev × Bool
  | (sends, k, raised) =>
    if raised then
      if env.sendOk k then
        ((sends ++ [generate_response 500 [] (str "500 Internal Server Error")]).map Ev.sent
          ++ [Ev.closed], false)
      else (sends.map Ev.sent ++ [Ev.closed], true)
    else (sends.map Ev.sent ++ [Ev.closed], false)

/-- `handle_client` (`src/main.py:109-129`): the event trace of one
connection and whether an exception escapes to the accept loop. -/
def handle_client (env : Env) : List Ev × Bool :=
  afterBody env (handleBody env)

/-- The accept loop of `__main__` (`src/main.py:136-150`): connections are
handled strictly in order; an exception escaping `handle_client` is caught
by the outer `try`, which closes the listening socket and terminates the
process, so later connections are never handled. -/
def run_server : List Env → List (List Ev)
  | [] => []
  | env :: rest =>
    match handle_client env with
    | (evs, escaped) => if escaped then [evs] else evs :: run_server rest

/-- Parsing a serialized header block back, as described by the spec's
round-trip property: split on `"\r\n"`, then parse header lines
(splitting each on the first `": "`) until the first empty line. -/
def parseHeaderBlock (block : PyStr) : Option (List (PyStr × PyStr)) :=
  parseHeaderLines (splitCRLF block) []

/-- Whether some header line before the first empty line is missing the
separator `": "` (its split on the first `": "` does not yield two
pieces), mirroring the loop structure of `parse_request`. -/
def hasBadHeaderLine : List PyStr → Bool
  | [] => false
  | line :: rest =>
    if line = [] then false
    else
      match splitColonSpace1 line with
      | [_, _] => hasBadHeaderLine rest
      | _ => true

/-- A connection whose request line has a single token. -/
def c5WEnv : Env where
  fs := fun _ => .absent
  guess := fun _ => none
  recv := some (str "BAD\r\n\r\n")
  sendOk := fun _ => true

/-- A filesystem with one missing file and one unreadable file, for the
static-file error-handling witness. -/
def c6WEnv : Env where
  fs := fun p => if p = str "missing.txt" then .absent else .readRaises
  guess := fun _ => none
  recv := none
  sendOk := fun _ => true

/-- A connection requesting `/d`, where `d` is a directory. -/
def c10WEnv : Env where
  fs := fun p => if p = str "d" then .directory else .absent
  guess := fun _ => none
  recv := some (str "GET /d HTTP/1.1\r\n\r\n")
  sendOk := fun _ => true

/-- A concrete MIME lookup knowing only `a.txt`, for the content-type
witness. -/
def c9Guess : PyStr → Option PyStr := fun p =>
  if p = str "a.txt" then some (str "text/plain") else none

/-- Stripping a single leading `/`, as the spec words the router's
delegation; for comparison with the implementation's `lstrip('/')`. -/
def stripSingleSlash : PyStr → PyStr
  | '/' :: rest => rest
  | s => s

/-- A connection requesting `//x` on a filesystem where `/x` — the path
the claim says is delegated — exists with content `"A"`. -/
def c8CEnv : Env where
  fs := fun p => if p = str "/x" then .file [65] else .absent
  guess := fun _ => none
  recv := some (str "GET //x HTTP/1.1\r\n\r\n")
  sendOk := fun _ => true

/-- A connection requesting `//x`, for the amended-claim witness. -/
def c8WEnv : Env where
  fs := fun _ => .absent
  guess := fun _ => none
  recv := some (str "GET //x HTTP/1.1\r\n\r\n")
  sendOk := fun _ => true

/-- Reason phrase as the spec words it: `"OK"` for 200, `"Not Found"` for
404, `"Internal Server Error"` for 500, `"Unknown Status"` for every
other code.  Stated independently of the implementation's dictionary
lookup, for comparison with it. -/
def reasonSpec (code : Nat) : PyStr :=
  if code = 200 then str "OK"
  else if code = 404 then str "Not Found"
  else if code = 500 then str "Internal Server Error"
  else str "Unknown Status"

/-- Header block as the spec words it: the bytes of each header rendered
as `"<name>: <value>\r\n"`, in the order supplied. -/
def headerBlockSpec : List (PyStr × PyStr) → List Nat
  | [] => []
  | (n, v) :: rest => utf8Bytes (n ++ str ": " ++ v ++ str "\r\n") ++ headerBlockSpec rest

/-- A connection requesting the root path: the request parses, all sends
would succeed, yet the root branch performs no send. -/
def c1Env : Env where
  fs := fun _ => .absent
  guess := fun _ => none
  recv := some (str "GET / HTTP/1.1\r\n\r\n")
  sendOk := fun _ => true

/-- A connection requesting the root path, used for the response-count
part of the connection-lifecycle claim. -/
def c2RootEnv : Env where
  fs := fun _ => .absent
  guess := fun _ => none
  recv := some (str "GET / HTTP/1.1\r\n\r\n")
  sendOk := fun _ => true

/-- A connection whose `recv` raises and whose best-effort 500 send also
fails, so the exception escapes `handle_client`. -/
def c2FailEnv : Env where
  fs := fun _ => .absent
  guess := fun _ => none
  recv := none
  sendOk := fun _ => false

/-- A healthy, unrelated connection queued after `c2FailEnv`. -/
def c2NextEnv : Env where
  fs := fun _ => .absent
  guess := fun _ => none
  recv := some (str "GET /y HTTP/1.1\r\n\r\n")
  sendOk := fun _ => true

/-- A connection requesting `/f.bin`, where the file exists and its
content is the single byte `0xFF`. -/
def c3Env : Env where
  fs := fun p => if p = str "f.bin" then .file [255] else .absent
  guess := fun _ => none
  recv := some (str "GET /f.bin HTTP/1.1\r\n\r\n")
  sendOk := fun _ => true

example : splitSpace (str "GET / HTTP/1.1") = [str "GET", str "/", str "HTTP/1.1"] := by decide
example : splitCRLF (str "a\r\nb\r\n") = [str "a", str "b", []] := by decide
example : splitColonSpace1 (str "Host: x: y") = [str "Host", str "x: y"] := by decide
example : lstripSlash (str "//x") = str "x" := by decide
example : parse_request (str "GET / HTTP/1.1\r\nHost: h\r\n\r\n") =
    some ⟨str "GET", str "/", str "HTTP/1.1", [(str "Host", str "h")]⟩ := by decide

/-- Claim C1 (refuted by evaluation; code bug): for a well-formed request
for path `/`, with every `sendall` guaranteed to succeed, `handle_client`
sends nothing at all — the trace holds only the close event.  The root
branch (`src/main.py:114-120`) builds the 200 greeting response into a
local variable but never calls `sendall` on it, so the response the claim
says is sent never reaches the client. -/
theorem c1_root_response_never_sent :
    handle_client c1Env = ([Ev.closed], false) := by decide

/-- Claim C2 (refuted by evaluation; code bug): (1) a connection
requesting `/` produces zero sent responses, not exactly one; (2) when a
connection's `recv` raises and the best-effort 500 send also fails, the
exception escapes `handle_client` and the accept loop terminates, so the
healthy connection queued behind it is never handled — its trace is
missing from `run_server`'s output; (3) that same healthy connection, run
on its own, would have been answered with a 404 response. -/
theorem c2_lifecycle_violations :
    handle_client c2RootEnv = ([Ev.closed], false)
    ∧ run_server [c2FailEnv, c2NextEnv] = [[Ev.closed]]
    ∧ run_server [c2NextEnv] =
        [[Ev.sent (generate_response 404 [] (str "404 Not Found")), Ev.closed]] := by
  decide

/-- Claim C3 (refuted by evaluation; code bug): serving an existing file
whose content is the single byte `0xFF` sends a 200 response whose
`Content-Length` header says `1`, but whose body on the wire is the two
bytes `[0xC3, 0xBF]` — the file's bytes are decoded as latin-1 and then
re-encoded as UTF-8 by the serializer (`src/main.py:83,107`), so the body
is not byte-identical to the file's content. -/
theorem c3_non_ascii_body_transformed :
    handle_client c3Env =
      ([Ev.sent (generate_response 200
          [(str "Content-Type", str "application/octet-stream"),
           (str "Content-Length", str "1")] (latin1Decode [255])),
        Ev.closed], false)
    ∧ utf8Bytes (latin1Decode [255]) = [195, 191]
    ∧ utf8Bytes (latin1Decode [255]) ≠ [255] := by
  decide

/-- Encoding a concatenation is the concatenation of the encodings. -/
theorem utf8Bytes_append (a b : PyStr) : utf8Bytes (a ++ b) = utf8Bytes a ++ utf8Bytes b := by
  induction a with
  | nil => rfl
  | cons c rest ih => simp [utf8Bytes, ih, List.append_assoc]

/-- The dictionary lookup of `generate_response` agrees with the spec's
reason-phrase table at every status code. -/
theorem statusMessage_eq_reasonSpec (code : Nat) : statusMessage code = reasonSpec code := by
  unfold statusMessage reasonSpec status_messages
  rcases eq_or_ne code 200 with h2 | h2
  · subst h2; rfl
  rcases eq_or_ne code 404 with h4 | h4
  · subst h4; rfl
  rcases eq_or_ne code 500 with h5 | h5
  · subst h5; rfl
  have e2 : (code == 200) = false := by simp [h2]
  have e4 : (code == 404) = false := by simp [h4]
  have e5 : (code == 500) = false := by simp [h5]
  simp [List.lookup, e2, e4, e5, h2, h4, h5]

/-- The serializer's header loop emits exactly the spec's header block. -/
theorem utf8Bytes_header_lines (hs : List (PyStr × PyStr)) :
    utf8Bytes (header_lines hs) = headerBlockSpec hs := by
  induction hs with
  | nil => rfl
  | cons p rest ih =>
    cases p with
    | mk n v =>
      simp [header_lines, headerBlockSpec, utf8Bytes_append, ih, List.append_assoc]

/-- Claim C4 (confirmed): for every status code, header mapping and body,
`generate_response` produces exactly the bytes of
`"HTTP/1.1 <code> <reason>\r\n"`, then each header as
`"<name>: <value>\r\n"` in the order supplied, then the blank line
`"\r\n"`, then the body, with the reason phrase `"OK"` for 200,
`"Not Found"` for 404, `"Internal Server Error"` for 500 and
`"Unknown Status"` for every other code. -/
theorem c4_generate_response_layout (code : Nat) (headers : List (PyStr × PyStr)) (body : PyStr) :
    generate_response code headers body =
      utf8Bytes (str "HTTP/1.1 " ++ natToStr code ++ str " " ++ reasonSpec code ++ str "\r\n")
      ++ headerBlockSpec headers ++ utf8Bytes (str "\r\n") ++ utf8Bytes body := by
  simp [generate_response, utf8Bytes_append, utf8Bytes_header_lines,
    statusMessage_eq_reasonSpec, List.append_assoc]

/-- The header loop raises (returns `none`) whenever some header line
before the first empty line is missing `": "`, whatever has been
accumulated so far. -/
theorem parseHeaderLines_none : ∀ ls : List PyStr, hasBadHeaderLine ls = true →
    ∀ acc, parseHeaderLines ls acc = none := by
  intro ls
  induction ls with
  | nil => intro h; simp [hasBadHeaderLine] at h
  | cons line rest ih =>
    intro h acc
    by_cases hl : line = []
    · simp [hasBadHeaderLine, hl] at h
    · rcases hsp : splitColonSpace1 line with _ | ⟨a, _ | ⟨b, _ | ⟨c, tl⟩⟩⟩
      · simp [parseHeaderLines, hl, hsp]
      · simp [parseHeaderLines, hl, hsp]
      · simp only [hasBadHeaderLine, if_neg hl, hsp] at h
        simp only [parseHeaderLines, if_neg hl, hsp]
        exact ih h _
      · simp [parseHeaderLines, hl, hsp]

/-- `parse_request` raises (returns `none`) on every request whose first
line does not split into exactly three space-separated tokens or that has
a header line before the first empty line missing `": "`. -/
theorem parse_request_none_of_malformed (request : PyStr)
    (hbad : (splitSpace ((splitCRLF request).headD [])).length ≠ 3
      ∨ hasBadHeaderLine ((splitCRLF request).tail) = true) :
    parse_request request = none := by
  unfold parse_request
  split
  · rename_i m p v heq
    rcases hbad with hb | hb
    · rw [heq] at hb; simp at hb
    · rw [parseHeaderLines_none _ hb]; rfl
  · rfl

/-- Claim C5 (confirmed): for every connection whose received request is
malformed — the first line does not split into exactly three
space-separated tokens, or a header line before the first empty line is
missing `": "` — and whose socket accepts the send, `handle_client` sends
exactly the 500 response and returns normally (no exception escapes to
the accept loop). -/
theorem c5_malformed_request_500 (env : Env) (request : PyStr)
    (hrecv : env.recv = some request)
    (hbad : (splitSpace ((splitCRLF request).headD [])).length ≠ 3
      ∨ hasBadHeaderLine ((splitCRLF request).tail) = true)
    (hsend : env.sendOk 0 = true) :
    handle_client env =
      ([Ev.sent (generate_response 500 [] (str "500 Internal Server Error")), Ev.closed], false) := by
  have hpr := parse_request_none_of_malformed request hbad
  simp [handle_client, handleBody, afterBody, hrecv, hpr, hsend]

/-- Witness for C5: the request `"BAD\r\n\r\n"`, whose request line has a
single token, gets exactly one 500 response and the connection survives. -/
theorem c5_malformed_witness :
    handle_client c5WEnv =
      ([Ev.sent (generate_response 500 [] (str "500 Internal Server Error")), Ev.closed], false) :=
  c5_malformed_request_500 c5WEnv (str "BAD\r\n\r\n") rfl (Or.inl (by decide)) rfl

/-- Claim C6 (confirmed): with a working socket, `serve_static_file`
answers a non-existent path with a 404 response carrying an empty header
mapping and the exact body `"404 Not Found"`, and answers any I/O failure
while checking or reading — the existence check raising, or the path
existing but the open/read raising — with a 500 response carrying an
empty header mapping and the exact body `"500 Internal Server Error"`. -/
theorem c6_static_404_500 (env : Env) (p q : PyStr)
    (habs : env.fs p = .absent)
    (hio : env.fs q = .checkRaises ∨ env.fs q = .readRaises)
    (hsend : env.sendOk 0 = true) :
    serve_static_file env 0 p =
      ([generate_response 404 [] (str "404 Not Found")], 1, false)
    ∧ serve_static_file env 0 q =
      ([generate_response 500 [] (str "500 Internal Server Error")], 1, false) := by
  constructor
  · simp [serve_static_file, habs, trySend, hsend]
  · rcases hio with h | h <;> simp [serve_static_file, h, except500, hsend]

/-- Witness for C6 on a concrete filesystem: `missing.txt` is absent and
gets the 404, `locked.txt` exists but cannot be read and gets the 500. -/
theorem c6_static_witness :
    serve_static_file c6WEnv 0 (str "missing.txt") =
      ([generate_response 404 [] (str "404 Not Found")], 1, false)
    ∧ serve_static_file c6WEnv 0 (str "locked.txt") =
      ([generate_response 500 [] (str "500 Internal Server Error")], 1, false) :=
  c6_static_404_500 c6WEnv (str "missing.txt") (str "locked.txt")
    (by decide) (Or.inr (by decide)) rfl

/-- Claim C9 (confirmed): `get_content_type` is a pure total function; it
returns the MIME type the extension lookup infers whenever that lookup
produces one (a non-empty string), and degrades to
`"application/octet-stream"` whenever the lookup has no answer — an
unknown or absent extension — rather than erroring. -/
theorem c9_content_type_total (guess : PyStr → Option PyStr) (p : PyStr) :
    (∀ t, guess p = some t → t ≠ [] → get_content_type guess p = t)
    ∧ ((guess p = none ∨ guess p = some []) →
        get_content_type guess p = str "application/octet-stream") := by
  constructor
  · intro t ht hne
    simp [get_content_type, pyOrStr, ht, hne]
  · rintro (h | h) <;> simp [get_content_type, pyOrStr, h]

/-- Witness for C9: a lookup that knows `a.txt` is served as-is, and a
path the lookup does not know falls back to the default type. -/
theorem c9_content_type_witness :
    get_content_type c9Guess (str "a.txt") = str "text/plain"
    ∧ get_content_type c9Guess (str "a.xyz") = str "application/octet-stream" :=
  ⟨(c9_content_type_total c9Guess (str "a.txt")).1 (str "text/plain") (by decide) (by decide),
   (c9_content_type_total c9Guess (str "a.xyz")).2 (Or.inl (by decide))⟩

/-- Claim C10 (confirmed): for every connection whose parsed path names a
directory (after stripping leading slashes), with a working socket, the
server sends exactly the 500 response with body
`"500 Internal Server Error"` — not a 404: the existence check succeeds
for a directory, so the open-for-read raises and the failure is handled
by the I/O-failure branch of `serve_static_file`. -/
theorem c10_directory_500 (env : Env) (request : PyStr) (req : ParsedRequest)
    (hrecv : env.recv = some request)
    (hparse : parse_request request = some req)
    (hroot : req.path ≠ str "/")
    (hdir : env.fs (lstripSlash req.path) = .directory)
    (hsend : env.sendOk 0 = true) :
    handle_client env =
      ([Ev.sent (generate_response 500 [] (str "500 Internal Server Error")), Ev.closed], false) := by
  simp [handle_client, handleBody, hrecv, hparse, hroot, serve_static_file,
    hdir, except500, hsend, afterBody]

/-- Witness for C10: requesting `/d`, where `d` is a directory, gets the
500 response. -/
theorem c10_directory_witness :
    handle_client c10WEnv =
      ([Ev.sent (generate_response 500 [] (str "500 Internal Server Error")), Ev.closed], false) :=
  c10_directory_500 c10WEnv (str "GET /d HTTP/1.1\r\n\r\n")
    ⟨str "GET", str "/d", str "HTTP/1.1", []⟩ rfl (by decide) (by decide) (by decide) rfl

/-- Counterexample to claim C8 as stated: for the request path `//x` the
router does not delegate the single-slash-stripped remainder `/x` — even
though `/x` exists on the filesystem (with content `"A"`), the connection
is answered 404, because `lstrip('/')` removed both slashes and the
absent path `x` was looked up instead. -/
theorem c8_counterexample :
    lstripSlash (str "//x") ≠ stripSingleSlash (str "//x")
    ∧ handle_client c8CEnv =
        ([Ev.sent (generate_response 404 [] (str "404 Not Found")), Ev.closed], false) := by
  decide

/-- The implementation's strip removes every leading slash. -/
theorem lstripSlash_eq_dropWhile (s : PyStr) :
    lstripSlash s = s.dropWhile (fun c => c == '/') := by
  induction s with
  | nil => rfl
  | cons c rest ih =>
    by_cases h : c = '/'
    · simp [lstripSlash, List.dropWhile, h, ih]
    · have hb : (c == '/') = false := by simp [h]
      simp [lstripSlash, List.dropWhile, h, hb, ih]

/-- Claim C8 as amended (proved): for every parsed request path other
than exactly `/`, the router delegates to the static-file handler the
path obtained by stripping all (not just one) leading `/` characters. -/
theorem c8_strip_all_slashes (env : Env) (request : PyStr) (req : ParsedRequest)
    (hrecv : env.recv = some request)
    (hparse : parse_request request = some req)
    (hroot : req.path ≠ str "/") :
    handleBody env = serve_static_file env 0 (lstripSlash req.path)
    ∧ lstripSlash req.path = req.path.dropWhile (fun c => c == '/') := by
  refine ⟨?_, lstripSlash_eq_dropWhile _⟩
  simp [handleBody, hrecv, hparse, hroot]

/-- Witness for the amended C8 at the request path `//x`. -/
theorem c8_strip_witness :
    handleBody c8WEnv = serve_static_file c8WEnv 0 (lstripSlash (str "//x"))
    ∧ lstripSlash (str "//x") = (str "//x").dropWhile (fun c => c == '/') :=
  c8_strip_all_slashes c8WEnv (str "GET //x HTTP/1.1\r\n\r\n")
    ⟨str "GET", str "//x", str "HTTP/1.1", []⟩ rfl (by decide) (by decide)

/-- Counterexample to claim C7 as stated: the mapping whose single entry
has the name `"a: b"` (containing the separator) and the value `"c"` does
not round-trip — serialization yields the line `"a: b: c"`, and parsing
splits it at the first `": "`, giving the entry `("a", "b: c")`. -/
theorem c7_counterexample :
    parseHeaderBlock (header_lines [(str "a: b", str "c")])
      ≠ some [(str "a: b", str "c")] := by
  decide

/-- A header line `name ++ ": " ++ value` contains no `"\r\n"` when
neither the name nor the value does. -/
theorem hasCRLF_name_sep_value (n v : PyStr) (hn : hasCRLF n = false)
    (hv : hasCRLF v = false) : hasCRLF (n ++ ':' :: ' ' :: v) = false := by
  induction n with
  | nil =>
    cases v with
    | nil => decide
    | cons d v' =>
      simp [hasCRLF] at hv ⊢
      exact hv
  | cons c n' ih =>
    cases n' with
    | nil =>
      have h1 := ih rfl
      simp [hasCRLF] at h1 ⊢
      exact h1
    | cons d n'' =>
      simp [hasCRLF] at hn ⊢
      exact ⟨hn.1, ih hn.2⟩

/-- Splitting on `"\r\n"` severs exactly at a separator following a
separator-free chunk. -/
theorem splitCRLF_append (l s : PyStr) (h : hasCRLF l = false) :
    splitCRLF (l ++ '\r' :: '\n' :: s) = l :: splitCRLF s := by
  induction l with
  | nil => simp [splitCRLF]
  | cons c l' ih =>
    cases l' with
    | nil =>
      have h1 : splitCRLF ('\r' :: '\n' :: s) = [] :: splitCRLF s := by
        simp [splitCRLF]
      simp [splitCRLF, h1]
    | cons d l'' =>
      simp [hasCRLF] at h
      have h2 := ih h.2
      have hcond : ¬(c = '\r' ∧ d = '\n') := fun hx => h.1 hx.1 hx.2
      rw [List.cons_append] at h2
      simp only [List.cons_append, splitCRLF, if_neg hcond, List.append_eq]
      rw [h2]

/-- Splitting at the first `": "` severs a line `name ++ ": " ++ value`
exactly at the boundary when the name contains no `": "`. -/
theorem splitColonSpace1_boundary (n v : PyStr) (h : hasColonSpace n = false) :
    splitColonSpace1 (n ++ ':' :: ' ' :: v) = [n, v] := by
  induction n with
  | nil => simp [splitColonSpace1]
  | cons c n' ih =>
    cases n' with
    | nil =>
      have h1 : splitColonSpace1 (':' :: ' ' :: v) = [[], v] := by
        simp [splitColonSpace1]
      simp [splitColonSpace1, h1]
    | cons d n'' =>
      simp [hasColonSpace] at h
      have h2 := ih h.2
      have hcond : ¬(c = ':' ∧ d = ' ') := fun hx => h.1 hx.1 hx.2
      rw [List.cons_append] at h2
      simp only [List.cons_append, splitColonSpace1, if_neg hcond, List.append_eq]
      rw [h2]

/-- Inserting a fresh key into the dictionary appends it at the end. -/
theorem dictInsert_append (acc : List (PyStr × PyStr)) (k v : PyStr)
    (h : ∀ p ∈ acc, p.1 ≠ k) :
    dictInsert acc k v = acc ++ [(k, v)] := by
  induction acc with
  | nil => rfl
  | cons q rest ih =>
    cases q with
    | mk k' v' =>
      have hk : k' ≠ k := h (k', v') (List.mem_cons_self _ _)
      simp only [dictInsert, if_neg hk, List.cons_append, List.cons.injEq, true_and]
      exact ih (fun p hp => h p (List.mem_cons_of_mem _ hp))

/-- The serialized header block splits on `"\r\n"` into the individual
header lines followed by one empty piece, when no name or value contains
`"\r\n"`. -/
theorem splitCRLF_header_lines (hs : List (PyStr × PyStr))
    (hn : ∀ p ∈ hs, hasCRLF p.1 = false) (hv : ∀ p ∈ hs, hasCRLF p.2 = false) :
    splitCRLF (header_lines hs)
      = hs.map (fun p => p.1 ++ ':' :: ' ' :: p.2) ++ [[]] := by
  induction hs with
  | nil => rfl
  | cons p rest ih =>
    cases p with
    | mk n v =>
      have e1 : str ": " = [':', ' '] := by decide
      have e2 : str "\r\n" = ['\r', '\n'] := by decide
      have hshape : header_lines ((n, v) :: rest)
          = (n ++ ':' :: ' ' :: v) ++ '\r' :: '\n' :: header_lines rest := by
        simp [header_lines, e1, e2, List.append_assoc]
      rw [hshape, splitCRLF_append _ _
        (hasCRLF_name_sep_value n v (hn (n, v) (by simp)) (hv (n, v) (by simp)))]
      rw [ih (fun q hq => hn q (by simp [hq])) (fun q hq => hv q (by simp [hq]))]
      simp

/-- Parsing the serialized lines of a well-formed mapping appends its
entries, in order, to whatever the header dictionary already holds. -/
theorem parseHeaderLines_roundtrip :
    ∀ hs acc : List (PyStr × PyStr),
      (∀ p ∈ hs, hasColonSpace p.1 = false) →
      (hs.map Prod.fst).Nodup →
      (∀ p ∈ hs, ∀ q ∈ acc, q.1 ≠ p.1) →
      parseHeaderLines (hs.map (fun p => p.1 ++ ':' :: ' ' :: p.2) ++ [[]]) acc
        = some (acc ++ hs) := by
  intro hs
  induction hs with
  | nil =>
    intro acc _ _ _
    simp [parseHeaderLines]
  | cons p rest ih =>
    intro acc hcs hnd hdisj
    cases p with
    | mk n v =>
      have hline : n ++ ':' :: ' ' :: v ≠ [] := by cases n <;> simp
      have hsp := splitColonSpace1_boundary n v (hcs (n, v) (by simp))
      have hins : dictInsert acc n v = acc ++ [(n, v)] :=
        dictInsert_append acc n v (fun q hq => hdisj (n, v) (by simp) q hq)
      simp only [List.map_cons, List.cons_append, parseHeaderLines,
        if_neg hline, hsp, hins, List.append_eq]
      have hnd' : (rest.map Prod.fst).Nodup := by
        simp only [List.map_cons, List.nodup_cons] at hnd
        exact hnd.2
      have hmem : n ∉ rest.map Prod.fst := by
        simp only [List.map_cons, List.nodup_cons] at hnd
        exact hnd.1
      rw [ih (acc ++ [(n, v)]) (fun q hq => hcs q (by simp [hq])) hnd' ?hdisj]
      · simp
      case hdisj =>
        intro q hq r hr
        rcases List.mem_append.mp hr with h1 | h1
        · exact hdisj q (by simp [hq]) r h1
        · have hr2 : r = (n, v) := by simpa using h1
          subst hr2
          intro he
          have he' : n = q.1 := he
          rw [he'] at hmem
          exact hmem (List.mem_map_of_mem Prod.fst hq)

/-- Claim C7 as amended (proved): the round trip holds for every header
mapping whose names are pairwise distinct and contain neither `"\r\n"`
nor the separator `": "`, and whose values contain no `"\r\n"`:
serializing each entry as `"<name>: <value>\r\n"` in order and parsing
the block back (splitting on `"\r\n"`, then each line on its first
`": "`, into the insertion-ordered dictionary) reproduces the original
entries in the same order. -/
theorem c7_roundtrip_amended (hs : List (PyStr × PyStr))
    (hn : ∀ p ∈ hs, hasCRLF p.1 = false)
    (hv : ∀ p ∈ hs, hasCRLF p.2 = false)
    (hcs : ∀ p ∈ hs, hasColonSpace p.1 = false)
    (hnd : (hs.map Prod.fst).Nodup) :
    parseHeaderBlock (header_lines hs) = some hs := by
  rw [parseHeaderBlock, splitCRLF_header_lines hs hn hv,
    parseHeaderLines_roundtrip hs [] hcs hnd
      (fun p _ q hq => absurd hq (List.not_mem_nil q))]
  simp

/-- Witness for the amended C7 on a typical response-header mapping. -/
theorem c7_roundtrip_witness :
    parseHeaderBlock (header_lines
        [(str "Content-Type", str "text/html"), (str "Content-Length", str "48")])
      = some [(str "Content-Type", str "text/html"), (str "Content-Length", str "48")] :=
  c7_roundtrip_amended
    [(str "Content-Type", str "text/html"), (str "Content-Length", str "48")]
    (by decide) (by decide) (by decide) (by decide)
